import Mathlib

/-!
Shallow embedding of the Task-Dashboard backend
(`src/backend/src` of sahayapriyanka/Task-Dashboard-Vitasoft).

Modelling conventions:
* Timestamps (`createdAt`, `updatedAt`, the clock `now`) are epoch
  milliseconds as `Nat`; ISO-8601 timestamp strings order-embed into them.
* Due dates travel through the API as date-only `YYYY-MM-DD` strings; they
  are modelled as calendar-day numbers (days since epoch), so
  `new Date(value).getTime() = d * 86400000` (UTC midnight of that day)
  and the repository's `split('T')[0]` normalisation is the identity.
* The bcrypt hash of a password (`bcrypt.hash`, an external library call)
  is passed in as an explicit `pwHash` argument, and `bcrypt.compare` as a
  `checkPw` function argument; `jwt.sign` is a `sign` function argument and
  `jwt.verify` a `verify : String → VerifyResult` argument, per the Token
  Service contract (signature/expiry checking happens inside the library).
* The database is a list of rows in retrieval order; `.first()` /
  `findById` is `List.find?`, inserts append, `UPDATE ... WHERE id` maps
  over matching rows.
-/

namespace TaskDashboard

/-!
JavaScript string primitives, defined over `String.data` (the character
list) so that every definition evaluates inside the kernel. They mirror
`toLowerCase`, `trim`, `startsWith`, `split(' ')` and `includes` as used by
the backend source.
-/

/-- Character-list prefix test: does the haystack begin with the needle? -/
def leadsWith : List Char → List Char → Bool
  | [], _ => true
  | _ :: _, [] => false
  | n :: ns, h :: hs => n == h && leadsWith ns hs

/-- Substring containment on character lists: does the haystack contain the
needle as a contiguous run? -/
def containsSeq (needle : List Char) : List Char → Bool
  | [] => needle.isEmpty
  | h :: hs => leadsWith needle (h :: hs) || containsSeq needle hs

/-- JavaScript `haystack.includes(needle)`. -/
def strIncludes (haystack needle : String) : Bool :=
  containsSeq needle.data haystack.data

/-- JavaScript `s.toLowerCase()` (ASCII case mapping, as SQL `LOWER` and
`toLowerCase` agree on the ASCII e-mail/search strings of this API). -/
def jsToLower (s : String) : String :=
  ⟨s.data.map Char.toLower⟩

/-- Whitespace-stripping on character lists from both ends. -/
def trimChars (l : List Char) : List Char :=
  ((l.dropWhile Char.isWhitespace).reverse.dropWhile Char.isWhitespace).reverse

/-- JavaScript `s.trim()`. -/
def jsTrim (s : String) : String :=
  ⟨trimChars s.data⟩

/-- JavaScript `s.startsWith(p)`. -/
def jsStartsWith (s p : String) : Bool :=
  leadsWith p.data s.data

/-- JavaScript `s.split(' ')` on character lists. -/
def splitOnSpace : List Char → List (List Char)
  | [] => [[]]
  | c :: cs =>
    let r := splitOnSpace cs
    if c == ' ' then [] :: r
    else
      match r with
      | [] => [[c]]
      | h :: t => (c :: h) :: t

/-- The token extracted by `authHeader.split(' ')[1]` in middleware/auth.ts
(the segment between the first and the second space). -/
def bearerToken (h : String) : String :=
  ⟨(splitOnSpace h.data).getD 1 []⟩

/-- Task status enum from `types`: `'todo' | 'in-progress' | 'done'`. -/
inductive TaskStatus
  | todo
  | inProgress
  | done
deriving DecidableEq, Repr

/-- Wire representation of a `TaskStatus` (the string stored in the DB and
compared against the `status` query parameter). -/
def TaskStatus.serialize : TaskStatus → String
  | .todo => "todo"
  | .inProgress => "in-progress"
  | .done => "done"

/-- Task priority enum from `types`: `'low' | 'medium' | 'high'`. -/
inductive TaskPriority
  | low
  | medium
  | high
deriving DecidableEq, Repr

/-- Wire representation of a `TaskPriority`. -/
def TaskPriority.serialize : TaskPriority → String
  | .low => "low"
  | .medium => "medium"
  | .high => "high"

/-- The `Task` entity (controllers/taskController.ts, types). -/
structure Task where
  id : String
  title : String
  description : String
  status : TaskStatus
  priority : TaskPriority
  dueDate : Option Nat
  createdAt : Nat
  updatedAt : Nat
  userId : String
deriving DecidableEq, Repr

/-- The `User` entity (controllers/authController.ts, types). -/
structure User where
  id : String
  email : String
  name : String
  passwordHash : String
  createdAt : Nat
deriving DecidableEq, Repr

/-- The user projection returned to clients: `user` with `passwordHash`
destructured away (`const { passwordHash: _omit, ...safeUser } = user`). -/
structure SafeUser where
  id : String
  email : String
  name : String
  createdAt : Nat
deriving DecidableEq, Repr

/-- The rest-spread `{ passwordHash: _omit, ...safeUser }` projection. -/
def serializeUser (u : User) : SafeUser :=
  { id := u.id, email := u.email, name := u.name, createdAt := u.createdAt }

/-- JWT payload `{ userId, email }` (types, middleware/auth.ts). -/
structure JwtPayload where
  userId : String
  email : String
deriving DecidableEq, Repr

/- ===== Repository (config/repository.ts, DatabaseRepository) ===== -/

/-- DatabaseRepository.findUserById: `db('users').where({id}).first()`. -/
def findUserById (users : List User) (id : String) : Option User :=
  users.find? (fun u => u.id == id)

/-- DatabaseRepository.findUserByEmail:
`whereRaw('LOWER(email) = ?', [email.toLowerCase()]).first()` — the lookup
lowercases both sides but does NOT trim. -/
def findUserByEmail (users : List User) (email : String) : Option User :=
  users.find? (fun u => jsToLower u.email == jsToLower email)

/-- DatabaseRepository.saveUser: `INSERT` of the new row into `users`.
The users migration (20240101000001) declares the `email` column unique,
so an insert whose email equals an already stored email persists nothing
and raises a duplicate-key error (`none`). Stored e-mails are always
written normalized (lowercased and trimmed) by register, the only writer,
so byte equality is exactly what the unique index sees on every reachable
insert. -/
def saveUser (users : List User) (u : User) : Option (List User) :=
  if users.any (fun x => x.email == u.email) then none
  else some (users ++ [u])

/-- DatabaseRepository.findTaskById: `db('tasks').where({id}).first()`. -/
def findTaskById (tasks : List Task) (id : String) : Option Task :=
  tasks.find? (fun t => t.id == id)

/-- DatabaseRepository.getTasksByUser: all rows with `user_id = userId`,
in retrieval order. -/
def getTasksByUser (tasks : List Task) (userId : String) : List Task :=
  tasks.filter (fun t => t.userId == userId)

/-- DatabaseRepository.saveTask (upsert): if a row with the task's id
exists, `UPDATE` it (all columns except `created_at`, so each matching row
keeps its own `created_at`); otherwise `INSERT` with `created_at = now` —
the handler already sets `createdAt`/`updatedAt` to the same clock value.
The `due_date` `split('T')[0]` formatting is the identity on the date-only
due-date values of this model. -/
def saveTaskStore (tasks : List Task) (t : Task) : List Task :=
  match tasks.find? (fun x => x.id == t.id) with
  | some _ => tasks.map (fun x => if x.id == t.id then { t with createdAt := x.createdAt } else x)
  | none => tasks ++ [t]

/-- DatabaseRepository.deleteTask: `db('tasks').where({id}).delete()`. -/
def deleteTaskStore (tasks : List Task) (id : String) : List Task :=
  tasks.filter (fun x => !(x.id == id))

/- ===== Task controller (controllers/taskController.ts) ===== -/

/-- Response envelope `{success, data?, message?, errors?}` plus HTTP
status, for endpoints whose `data` is a single task (or nothing). Only the
validate middleware fills `errors`; every other response leaves it out. -/
structure TaskResponse where
  status : Nat
  success : Bool
  data : Option Task
  message : Option String
  errors : List String := []
deriving DecidableEq, Repr

/-- The uniform 404 body `{success:false, message:'Task not found.'}` sent
by getTaskById / updateTask / deleteTask for an absent or non-owned task. -/
def taskNotFoundResp : TaskResponse :=
  { status := 404, success := false, data := none, message := some "Task not found." }

/-- GET /tasks/:id (taskController.getTaskById). -/
def getTaskById (tasks : List Task) (requesterId id : String) : TaskResponse :=
  match findTaskById tasks id with
  | none => taskNotFoundResp
  | some task =>
    if task.userId != requesterId then taskNotFoundResp
    else { status := 200, success := true, data := some task, message := none }

/-- Partial PATCH body for updateTask: a field that is `none` was absent
from the JSON body (`undefined`); for `dueDate`, `some none` is an explicit
JSON `null` and `some (some d)` a concrete date. -/
structure TaskBody where
  title : Option String
  description : Option String
  status : Option TaskStatus
  priority : Option TaskPriority
  dueDate : Option (Option Nat)
deriving DecidableEq, Repr

/-- The merge in updateTask: spread the stored task, overwrite exactly the
fields that are `!== undefined` in the body (trimming strings), and refresh
`updatedAt`. -/
def applyUpdate (task : Task) (b : TaskBody) (now : Nat) : Task :=
  { task with
    title := match b.title with | some s => jsTrim s | none => task.title
    description := match b.description with | some s => jsTrim s | none => task.description
    status := match b.status with | some v => v | none => task.status
    priority := match b.priority with | some v => v | none => task.priority
    dueDate := match b.dueDate with | some d => d | none => task.dueDate
    updatedAt := now }

/-- PATCH /tasks/:id (taskController.updateTask). -/
def updateTask (tasks : List Task) (requesterId id : String) (b : TaskBody) (now : Nat) :
    TaskResponse × List Task :=
  match findTaskById tasks id with
  | none => (taskNotFoundResp, tasks)
  | some task =>
    if task.userId != requesterId then (taskNotFoundResp, tasks)
    else
      let u := applyUpdate task b now
      ({ status := 200, success := true, data := some u,
         message := some "Task updated successfully." },
       saveTaskStore tasks u)

/-- DELETE /tasks/:id (taskController.deleteTask). -/
def deleteTask (tasks : List Task) (requesterId id : String) : TaskResponse × List Task :=
  match findTaskById tasks id with
  | none => (taskNotFoundResp, tasks)
  | some task =>
    if task.userId != requesterId then (taskNotFoundResp, tasks)
    else
      ({ status := 200, success := true, data := none,
         message := some "Task deleted successfully." },
       deleteTaskStore tasks task.id)

/-- POST /tasks body (`TaskBody` with required title, optional rest). -/
structure CreateBody where
  title : String
  description : Option String
  status : Option TaskStatus
  priority : Option TaskPriority
  dueDate : Option (Option Nat)
deriving DecidableEq, Repr

/-- POST /tasks (taskController.createTask): defaults
`description=''`, `status='todo'`, `priority='medium'`, `dueDate=null`. -/
def createTask (tasks : List Task) (userId : String) (b : CreateBody) (newId : String)
    (now : Nat) : TaskResponse × List Task :=
  let t : Task :=
    { id := newId
      title := jsTrim b.title
      description := jsTrim (b.description.getD "")
      status := b.status.getD .todo
      priority := b.priority.getD .medium
      dueDate := match b.dueDate with | some d => d | none => none
      createdAt := now
      updatedAt := now
      userId := userId }
  ({ status := 201, success := true, data := some t,
     message := some "Task created successfully." },
   saveTaskStore tasks t)

/-- Parsed shape of an Express query parameter as inspected by
`typeof q === 'string'`: absent, a single string, or an array (the shape
produced when the parameter is supplied more than once). -/
inductive QueryParam
  | absent
  | str (s : String)
  | arr (l : List String)
deriving DecidableEq, Repr

/-- The guard `if (q && typeof q === 'string')` of getTasks: yields the
filter string only for a non-empty single string (the empty string is
falsy in JavaScript), and nothing for an absent or array-valued param. -/
def qpString : QueryParam → Option String
  | .str s => if s == "" then none else some s
  | _ => none

/-- Descending creation-date order used by the getTasks sort comparator
`(a, b) => new Date(b.createdAt).getTime() - new Date(a.createdAt).getTime()`. -/
def createdDesc (a b : Task) : Prop :=
  b.createdAt ≤ a.createdAt

instance : DecidableRel createdDesc := fun a b => Nat.decLe b.createdAt a.createdAt

/-- Response envelope of GET /tasks. -/
structure TaskListResponse where
  status : Nat
  success : Bool
  data : List Task
deriving DecidableEq, Repr

/-- GET /tasks (taskController.getTasks): the owner's tasks, optionally
filtered by status equality, priority equality and case-insensitive
substring search over title/description, then sorted by `createdAt`
descending. `Array.prototype.sort` is stable (ES2019), and a stable sort
with respect to a total preorder is unique, so the sort is modelled by
stable insertion sort with respect to `createdDesc`. -/
def getTasks (tasks : List Task) (userId : String) (status priority search : QueryParam) :
    TaskListResponse :=
  let base := getTasksByUser tasks userId
  let s1 := match qpString status with
    | some q => base.filter (fun (t : Task) => t.status.serialize == q)
    | none => base
  let s2 := match qpString priority with
    | some q => s1.filter (fun (t : Task) => t.priority.serialize == q)
    | none => s1
  let s3 := match qpString search with
    | some q =>
      let ql := jsToLower q
      s2.filter (fun (t : Task) =>
        strIncludes (jsToLower t.title) ql || strIncludes (jsToLower t.description) ql)
    | none => s2
  { status := 200, success := true, data := s3.insertionSort createdDesc }

/- ===== Authorization gate (middleware/auth.ts) ===== -/

/-- Outcome of `jwt.verify(token, secret)` per the Token Service contract:
a decoded payload, a `TokenExpiredError`, or any other verification error
(malformed token / bad signature). -/
inductive VerifyResult
  | ok (payload : JwtPayload)
  | expired
  | invalid
deriving DecidableEq, Repr

/-- Outcome of the authenticate middleware: a 401 rejection that ends the
request, or success attaching the decoded payload and calling `next()`. -/
inductive AuthOutcome
  | rejected (status : Nat) (message : String)
  | authenticated (payload : JwtPayload)
deriving DecidableEq, Repr

/-- Body of the `try` block of authenticate, after the header format
check: verify the token, then re-confirm the subject still exists. -/
def checkBearerToken (verify : String → VerifyResult) (users : List User) (token : String) :
    AuthOutcome :=
  match verify token with
  | .expired => .rejected 401 "Token has expired."
  | .invalid => .rejected 401 "Invalid token."
  | .ok payload =>
    match findUserById users payload.userId with
    | none => .rejected 401 "User account no longer exists."
    | some _ => .authenticated payload

/-- middleware/auth.ts authenticate: reject when the header is absent or
does not start with `'Bearer '` (an empty-string header is falsy and takes
the same branch), otherwise take `split(' ')[1]` as the token and verify. -/
def authenticate (verify : String → VerifyResult) (users : List User)
    (authHeader : Option String) : AuthOutcome :=
  match authHeader with
  | none => .rejected 401 "Access denied. No token provided."
  | some h =>
    if jsStartsWith h "Bearer " then checkBearerToken verify users (bearerToken h)
    else .rejected 401 "Access denied. No token provided."

/- ===== Auth flow (controllers/authController.ts) ===== -/

/-- Success payload `{token, user}` of register/login. -/
structure AuthData where
  token : String
  user : SafeUser
deriving DecidableEq, Repr

/-- Response envelope of register/login. -/
structure AuthResponse where
  status : Nat
  success : Bool
  data : Option AuthData
  message : Option String
deriving DecidableEq, Repr

/-- The 409 duplicate-registration response. -/
def conflictResp : AuthResponse :=
  { status := 409, success := false, data := none,
    message := some "An account with this email already exists." }

/-- middleware/errorHandler.ts applied to an error that escapes register
(the duplicate-key throw of `saveUser`): a 500 envelope. The message shown
is the production-mode redaction; in development mode it would be the
database driver's error text instead. -/
def internalErrorResp : AuthResponse :=
  { status := 500, success := false, data := none,
    message := some "An internal server error occurred." }

/-- POST /auth/register (authController.register). `pwHash` is the output
of `bcrypt.hash(password, 12)` and `sign` is `jwt.sign` with the process
secret; the duplicate check looks the raw request e-mail up via
`findUserByEmail`, while the persisted e-mail is
`email.toLowerCase().trim()`. The handler has no try/catch, so a
duplicate-key throw from `saveUser` propagates to the global errorHandler
and nothing is persisted. -/
def register (sign : JwtPayload → String) (users : List User)
    (email name newId pwHash : String) (now : Nat) : AuthResponse × List User :=
  match findUserByEmail users email with
  | some _ => (conflictResp, users)
  | none =>
    let newUser : User :=
      { id := newId, email := jsTrim (jsToLower email), name := jsTrim name,
        passwordHash := pwHash, createdAt := now }
    match saveUser users newUser with
    | none => (internalErrorResp, users)
    | some users' =>
      let token := sign { userId := newUser.id, email := newUser.email }
      ({ status := 201, success := true,
         data := some { token := token, user := serializeUser newUser },
         message := some "Account created successfully." },
       users')

/-- POST /auth/login (authController.login). `checkPw` is
`bcrypt.compare`. -/
def login (sign : JwtPayload → String) (checkPw : String → String → Bool)
    (users : List User) (email password : String) : AuthResponse :=
  match findUserByEmail users email with
  | none =>
    { status := 401, success := false, data := none,
      message := some "Invalid email or password." }
  | some user =>
    if checkPw password user.passwordHash then
      { status := 200, success := true,
        data := some { token := sign { userId := user.id, email := user.email },
                       user := serializeUser user },
        message := some "Login successful." }
    else
      { status := 401, success := false, data := none,
        message := some "Invalid email or password." }

/-- Response envelope of GET /auth/me. -/
structure ProfileResponse where
  status : Nat
  success : Bool
  data : Option SafeUser
  message : Option String
deriving DecidableEq, Repr

/-- GET /auth/me (authController.getMe). -/
def getMe (users : List User) (userId : String) : ProfileResponse :=
  match findUserById users userId with
  | none =>
    { status := 404, success := false, data := none, message := some "User not found." }
  | some user =>
    { status := 200, success := true, data := some (serializeUser user), message := none }

/- ===== Route validation (routes/tasks.ts validators) ===== -/

/-- Calendar day (days since epoch) of the server-local current day:
`new Date(new Date().setHours(0,0,0,0))` divided out. `offMs` is the JS
`getTimezoneOffset()` value in milliseconds (UTC minus local), so local
clock time is `now - offMs`. -/
def localToday (now : Nat) (offMs : Int) : Int :=
  ((now : Int) - offMs).fdiv 86400000

/-- Epoch milliseconds of `new Date(new Date().setHours(0,0,0,0))`: local
midnight of the current day, expressed back in UTC epoch time. -/
def localDayStart (now : Nat) (offMs : Int) : Int :=
  localToday now offMs * 86400000 + offMs

/-- The custom dueDate check of routes/tasks.ts:
`new Date(value) < new Date(new Date().setHours(0,0,0,0))` — the date-only
value parses as UTC midnight `d * 86400000` and is compared against local
midnight. `true` means the validator throws `'Due date cannot be in the
past.'`. -/
def dueDatePast (d : Nat) (now : Nat) (offMs : Int) : Bool :=
  (d : Int) * 86400000 < localDayStart now offMs

/-- Error messages collected by the POST /tasks validator chain of
routes/tasks.ts: `title` must be non-empty after trim
(`'Task title is required.'`) and a concrete dueDate must not be in the
past (`'Due date cannot be in the past.'`). The dueDate chain is
`.optional({nullable: true})`, so absent and null values are skipped; enum
membership of status/priority and ISO-8601 well-formedness are enforced by
the field types of this model. -/
def createValidationMsgs (b : CreateBody) (now : Nat) (offMs : Int) : List String :=
  (if jsTrim b.title == "" then ["Task title is required."] else []) ++
  (match b.dueDate with
   | some (some d) =>
     if dueDatePast d now offMs then ["Due date cannot be in the past."] else []
   | _ => [])

/-- Error messages collected by the PATCH /tasks/:id validator chain of
routes/tasks.ts: an optional `title`, when supplied, must be non-empty
after trim (`'Title cannot be empty.'`), and a concrete dueDate must not
be in the past. -/
def updateValidationMsgs (b : TaskBody) (now : Nat) (offMs : Int) : List String :=
  (match b.title with
   | some s => if jsTrim s == "" then ["Title cannot be empty."] else []
   | none => []) ++
  (match b.dueDate with
   | some (some d) =>
     if dueDatePast d now offMs then ["Due date cannot be in the past."] else []
   | _ => [])

/-- The 422 response of middleware/validate.ts: when the express-validator
chain reported any error, respond
`{success: false, message: 'Validation failed.', errors: messages}` with
status 422 and stop before the handler. -/
def validationResp (msgs : List String) : TaskResponse :=
  { status := 422, success := false, data := none,
    message := some "Validation failed.", errors := msgs }

/-- POST /tasks route: validator chain, then the validate middleware
(422 with the collected messages if any check failed), then the
createTask handler. -/
def createTaskEndpoint (tasks : List Task) (userId : String) (b : CreateBody)
    (newId : String) (now : Nat) (offMs : Int) : TaskResponse × List Task :=
  let msgs := createValidationMsgs b now offMs
  if msgs.isEmpty then createTask tasks userId b newId now
  else (validationResp msgs, tasks)

/-- PATCH /tasks/:id route: validator chain, then the validate middleware,
then the updateTask handler. -/
def updateTaskEndpoint (tasks : List Task) (requesterId id : String) (b : TaskBody)
    (now : Nat) (offMs : Int) : TaskResponse × List Task :=
  let msgs := updateValidationMsgs b now offMs
  if msgs.isEmpty then updateTask tasks requesterId id b now
  else (validationResp msgs, tasks)

/- ===== Claim-side views used to state the ListTasks contract ===== -/

/-- View of an optional query parameter supplied as a single string. -/
def toQP : Option String → QueryParam
  | none => .absent
  | some s => .str s

/-- Case-insensitive substring match of the search query against title or
description, as performed by the search filter of getTasks. -/
def searchMatches (t : Task) (q : String) : Bool :=
  strIncludes (jsToLower t.title) (jsToLower q) ||
    strIncludes (jsToLower t.description) (jsToLower q)

/-- The conjunction of ownership and all supplied ListTasks filters:
status equality AND priority equality AND case-insensitive substring
search, each skipped when absent. -/
def listTasksPred (uid : String) (st pr se : Option String) (t : Task) : Bool :=
  (t.userId == uid) &&
  (match st with | some q => t.status.serialize == q | none => true) &&
  (match pr with | some q => t.priority.serialize == q | none => true) &&
  (match se with | some q => searchMatches t q | none => true)

instance : IsTotal Task createdDesc :=
  ⟨fun a b => Nat.le_total b.createdAt a.createdAt⟩

instance : IsTrans Task createdDesc :=
  ⟨fun _ _ _ hab hbc => Nat.le_trans hbc hab⟩

/- ===== Concrete fixtures used by witnesses and counterexamples ===== -/

/-- Fixture list for the ListTasks witness: four tasks of user `u` (two of
them tied on `createdAt`), one excluded by status, one owned by `v`. -/
def tasksW : List Task :=
  [ { id := "w1", title := "Foo bar", description := "", status := .done,
      priority := .high, dueDate := none, createdAt := 5, updatedAt := 5,
      userId := "u" },
    { id := "w2", title := "xFOOy", description := "", status := .done,
      priority := .high, dueDate := none, createdAt := 9, updatedAt := 9,
      userId := "u" },
    { id := "w3", title := "food", description := "", status := .todo,
      priority := .high, dueDate := none, createdAt := 7, updatedAt := 7,
      userId := "u" },
    { id := "w4", title := "other", description := "foo inside", status := .done,
      priority := .high, dueDate := none, createdAt := 5, updatedAt := 5,
      userId := "u" },
    { id := "w5", title := "foo", description := "", status := .done,
      priority := .high, dueDate := none, createdAt := 8, updatedAt := 8,
      userId := "v" } ]

/-- Witness data: a task owned by `alice`. -/
def taskA : Task :=
  { id := "t1", title := "Title", description := "Desc", status := .todo,
    priority := .medium, dueDate := none, createdAt := 10, updatedAt := 10,
    userId := "alice" }

/-- Witness verification function hitting all three failure modes. -/
def verifyCases : String → VerifyResult :=
  fun t =>
    if t == "exp" then .expired
    else if t == "ok" then .ok { userId := "gone", email := "gone@x.com" }
    else .invalid

/-- Stub verifier for the C5 counterexample: only `'tok'` verifies. -/
def verifyStub : String → VerifyResult :=
  fun t => if t == "tok" then .ok { userId := "u1", email := "u1@x.com" } else .invalid

/-- Registered user backing the C5 counterexample. -/
def userU1 : User :=
  { id := "u1", email := "u1@x.com", name := "User One", passwordHash := "h",
    createdAt := 0 }

/-- Helper: `checkBearerToken` can only answer with the expired, invalid or
subject-gone message, or authenticate — never with the no-token message. -/
theorem checkBearerToken_ne_no_token (verify : String → VerifyResult)
    (users : List User) (token : String) :
    checkBearerToken verify users token ≠
      .rejected 401 "Access denied. No token provided." := by
  unfold checkBearerToken
  cases verify token with
  | expired => simp
  | invalid => simp
  | ok p => cases hf : findUserById users p.userId <;> simp [hf]

/-- C1: for GetTask, UpdateTask and DeleteTask, when the task is absent or
its `userId` differs from the requester's id, the operation answers with
the single constant 404 `'Task not found.'` body — identical in both cases
and across the three operations, never a 403 Forbidden, and containing no
field of the task (its `data` is empty). -/
theorem task_id_ops_uniform_not_found (tasks : List Task) (requesterId id : String)
    (h : ∀ t, findTaskById tasks id = some t → t.userId ≠ requesterId) :
    getTaskById tasks requesterId id = taskNotFoundResp ∧
    (∀ (b : TaskBody) (now : Nat),
      updateTask tasks requesterId id b now = (taskNotFoundResp, tasks)) ∧
    deleteTask tasks requesterId id = (taskNotFoundResp, tasks) ∧
    taskNotFoundResp.status = 404 ∧ taskNotFoundResp.status ≠ 403 ∧
    taskNotFoundResp.data = none := by
  refine ⟨?_, ?_, ?_, rfl, by decide, rfl⟩
  · unfold getTaskById
    cases hf : findTaskById tasks id with
    | none => rfl
    | some t => simp [h t hf]
  · intro b now
    unfold updateTask
    cases hf : findTaskById tasks id with
    | none => rfl
    | some t => simp [h t hf]
  · unfold deleteTask
    cases hf : findTaskById tasks id with
    | none => rfl
    | some t => simp [h t hf]

/-- Witness for C1: requester `bob` probing `alice`'s task id gets the
constant not-found body from all three operations. -/
theorem task_id_ops_uniform_not_found_witness :
    getTaskById [taskA] "bob" "t1" = taskNotFoundResp ∧
    (∀ (b : TaskBody) (now : Nat),
      updateTask [taskA] "bob" "t1" b now = (taskNotFoundResp, [taskA])) ∧
    deleteTask [taskA] "bob" "t1" = (taskNotFoundResp, [taskA]) ∧
    taskNotFoundResp.status = 404 ∧ taskNotFoundResp.status ≠ 403 ∧
    taskNotFoundResp.data = none :=
  task_id_ops_uniform_not_found [taskA] "bob" "t1"
    (by
      intro t ht
      have h1 : findTaskById [taskA] "t1" = some taskA := by decide
      rw [h1] at ht
      cases Option.some.inj ht
      decide)

/-- C4: behind a well-formed bearer header, the gate distinguishes its
failure modes: an expired token is rejected 401 with
`'Token has expired.'`, a malformed/badly-signed token 401 with
`'Invalid token.'`, and a validly decoded token whose subject id no longer
resolves to a user 401 with `'User account no longer exists.'` — in
particular a stale token of a deleted user is not answered with the
invalid-token message. Each rejection returns without calling `next()`. -/
theorem authenticate_distinguishes_failures (verify : String → VerifyResult)
    (users : List User) (h : String) (p : JwtPayload)
    (hs : jsStartsWith h "Bearer " = true) :
    (verify (bearerToken h) = .expired →
      authenticate verify users (some h) = .rejected 401 "Token has expired.") ∧
    (verify (bearerToken h) = .invalid →
      authenticate verify users (some h) = .rejected 401 "Invalid token.") ∧
    (verify (bearerToken h) = .ok p → findUserById users p.userId = none →
      authenticate verify users (some h) =
        .rejected 401 "User account no longer exists." ∧
      authenticate verify users (some h) ≠ .rejected 401 "Invalid token.") := by
  refine ⟨?_, ?_, ?_⟩
  · intro hv
    simp [authenticate, hs, checkBearerToken, hv]
  · intro hv
    simp [authenticate, hs, checkBearerToken, hv]
  · intro hv hf
    have he : authenticate verify users (some h) =
        .rejected 401 "User account no longer exists." := by
      simp [authenticate, hs, checkBearerToken, hv, hf]
    refine ⟨he, ?_⟩
    rw [he]
    intro hc
    injection hc with _ h2
    exact absurd h2 (by decide)

/-- Witness for C4: the three failure messages on concrete headers against
an empty user table. -/
theorem authenticate_distinguishes_failures_witness :
    authenticate verifyCases [] (some "Bearer exp") =
      .rejected 401 "Token has expired." ∧
    authenticate verifyCases [] (some "Bearer bad") =
      .rejected 401 "Invalid token." ∧
    authenticate verifyCases [] (some "Bearer ok") =
      .rejected 401 "User account no longer exists." :=
  ⟨(authenticate_distinguishes_failures verifyCases [] "Bearer exp"
      { userId := "gone", email := "gone@x.com" } (by decide)).1 (by decide),
   (authenticate_distinguishes_failures verifyCases [] "Bearer bad"
      { userId := "gone", email := "gone@x.com" } (by decide)).2.1 (by decide),
   ((authenticate_distinguishes_failures verifyCases [] "Bearer ok"
      { userId := "gone", email := "gone@x.com" } (by decide)).2.2 (by decide)
      (by decide)).1⟩

/-- C5 counterexample: the header `'Bearer tok extra'` is not exactly of
the form `Bearer <token>` — the part after `'Bearer '` still contains a
space — yet the gate does not reject it with the no-token message: the
prefix check passes and the request is authenticated using `split(' ')[1]`. -/
theorem bearer_format_check_not_exact :
    authenticate verifyStub [userU1] (some "Bearer tok extra") =
      .authenticated { userId := "u1", email := "u1@x.com" } ∧
    "Bearer tok extra" = "Bearer " ++ "tok extra" ∧
    ("tok extra".data.any (fun c => c == ' ')) = true := by decide

/-- C5 amended: the gate rejects with `'Access denied. No token provided.'`
exactly when the header is absent or does not start with `'Bearer '`; any
header with that prefix — even one with extra content after the token —
passes the format check, and verification proceeds on the segment between
the first and second space (`split(' ')[1]`). -/
theorem authenticate_no_token_iff (verify : String → VerifyResult) (users : List User)
    (authHeader : Option String) :
    (authenticate verify users authHeader =
        .rejected 401 "Access denied. No token provided." ↔
      (authHeader = none ∨
        ∃ h, authHeader = some h ∧ jsStartsWith h "Bearer " = false)) ∧
    (∀ h, authHeader = some h → jsStartsWith h "Bearer " = true →
      authenticate verify users authHeader =
        checkBearerToken verify users (bearerToken h)) := by
  constructor
  · constructor
    · intro he
      cases authHeader with
      | none => exact Or.inl rfl
      | some h =>
        by_cases hs : jsStartsWith h "Bearer " = true
        · rw [show authenticate verify users (some h) =
              checkBearerToken verify users (bearerToken h) by
                simp [authenticate, hs]] at he
          exact absurd he (checkBearerToken_ne_no_token verify users (bearerToken h))
        · exact Or.inr ⟨h, rfl, by simpa using hs⟩
    · rintro (rfl | ⟨h, rfl, hs⟩)
      · rfl
      · simp [authenticate, hs]
  · rintro h rfl hs
    simp [authenticate, hs]

/-- Witness for C5 amended: a concrete prefixed header hands the token
`split(' ')[1]` to the verification stage. -/
theorem authenticate_no_token_iff_witness :
    authenticate verifyStub [] (some "Bearer abc") =
      checkBearerToken verifyStub [] (bearerToken "Bearer abc") :=
  (authenticate_no_token_iff verifyStub [] (some "Bearer abc")).2 "Bearer abc" rfl
    (by decide)

/-- C10: a status, priority or search query parameter that parses as an
array (parameter supplied more than once) fails the
`typeof === 'string'` guard, so its filter is skipped and the full
response — status 200 included — is the one produced with the parameter
absent; no error is returned. -/
theorem getTasks_ignores_array_params (tasks : List Task) (userId : String)
    (st pr se : QueryParam) (l1 l2 l3 : List String) :
    getTasks tasks userId (.arr l1) pr se = getTasks tasks userId .absent pr se ∧
    getTasks tasks userId st (.arr l2) se = getTasks tasks userId st .absent se ∧
    getTasks tasks userId st pr (.arr l3) = getTasks tasks userId st pr .absent :=
  ⟨rfl, rfl, rfl⟩

/-- C3: Register, Login and GetProfile only ever put the `serializeUser`
projection of a stored user into a response, and that projection is
determined by `id`, `email`, `name` and `createdAt` alone — it is
insensitive to `passwordHash`, so no response carries the password hash. -/
theorem user_responses_hide_password_hash :
    (∀ (u1 u2 : User), u1.id = u2.id → u1.email = u2.email → u1.name = u2.name →
      u1.createdAt = u2.createdAt → serializeUser u1 = serializeUser u2) ∧
    (∀ (sign : JwtPayload → String) (users : List User) (e n i ph : String) (t : Nat)
        (d : AuthData),
      (register sign users e n i ph t).1.data = some d →
      ∃ u, u ∈ (register sign users e n i ph t).2 ∧ d.user = serializeUser u) ∧
    (∀ (sign : JwtPayload → String) (checkPw : String → String → Bool)
        (users : List User) (e pw : String) (d : AuthData),
      (login sign checkPw users e pw).data = some d →
      ∃ u, u ∈ users ∧ d.user = serializeUser u) ∧
    (∀ (users : List User) (uid : String) (su : SafeUser),
      (getMe users uid).data = some su →
      ∃ u, u ∈ users ∧ su = serializeUser u) := by
  refine ⟨?_, ?_, ?_, ?_⟩
  · intro u1 u2 hid hem hnm hca
    simp [serializeUser, hid, hem, hnm, hca]
  · intro sign users e n i ph t d hd
    cases hf : findUserByEmail users e with
    | some u => simp [register, hf, conflictResp] at hd
    | none =>
      cases hs : saveUser users
          { id := i, email := jsTrim (jsToLower e), name := jsTrim n,
            passwordHash := ph, createdAt := t } with
      | none => simp [register, hf, hs, internalErrorResp] at hd
      | some users' =>
        simp only [register, hf, hs] at hd ⊢
        have hd' : d =
            { token := sign { userId := i, email := jsTrim (jsToLower e) },
              user := serializeUser
                { id := i, email := jsTrim (jsToLower e), name := jsTrim n,
                  passwordHash := ph, createdAt := t } } :=
          (Option.some.inj hd).symm
        have hmem :
            ({ id := i, email := jsTrim (jsToLower e), name := jsTrim n,
               passwordHash := ph, createdAt := t } : User) ∈ users' := by
          unfold saveUser at hs
          split at hs
          · exact absurd hs (by simp)
          · rw [← Option.some.inj hs]
            simp
        exact ⟨_, hmem, by rw [hd']⟩
  · intro sign checkPw users e pw d hd
    cases hf : findUserByEmail users e with
    | none => simp [login, hf] at hd
    | some u =>
      unfold login at hd
      rw [hf] at hd
      by_cases hc : checkPw pw u.passwordHash
      · simp [hc] at hd
        refine ⟨u, ?_, ?_⟩
        · exact List.mem_of_find?_eq_some hf
        · rw [← hd]
      · simp [hc] at hd
  · intro users uid su hd
    cases hf : findUserById users uid with
    | none => simp [getMe, hf] at hd
    | some u =>
      unfold getMe at hd
      rw [hf] at hd
      simp at hd
      exact ⟨u, List.mem_of_find?_eq_some hf, hd.symm⟩

/-- Witness for C3: two users differing only in their stored password hash
serialize to the same response projection. -/
theorem user_responses_hide_password_hash_witness :
    serializeUser { id := "i", email := "e", name := "n", passwordHash := "h1",
                    createdAt := 0 } =
      serializeUser { id := "i", email := "e", name := "n", passwordHash := "h2",
                      createdAt := 0 } :=
  user_responses_hide_password_hash.1 _ _ rfl rfl rfl rfl

/-- C7: on an owned existing task, UpdateTask with body `{status: "done"}`
produces the stored task with only `status` set to done and `updatedAt`
refreshed to now, every other field equal to its pre-update value; and for
every update body, the produced task's `id`, `userId` and `createdAt`
equal the pre-update values while `updatedAt` is refreshed. -/
theorem updateTask_status_done_frame (tasks : List Task) (requesterId id : String)
    (task : Task) (now : Nat)
    (hfind : findTaskById tasks id = some task)
    (hown : task.userId = requesterId) :
    (updateTask tasks requesterId id
        { title := none, description := none, status := some .done,
          priority := none, dueDate := none } now).1.data =
      some { task with status := .done, updatedAt := now } ∧
    (∀ (b : TaskBody) (u : Task),
      (updateTask tasks requesterId id b now).1.data = some u →
      u.id = task.id ∧ u.userId = task.userId ∧ u.createdAt = task.createdAt ∧
      u.updatedAt = now) := by
  constructor
  · simp [updateTask, hfind, hown, applyUpdate]
  · intro b u hu
    simp [updateTask, hfind, hown] at hu
    rw [← hu]
    simp [applyUpdate]

/-- Witness for C7: marking `taskA` done changes only status/updatedAt. -/
theorem updateTask_status_done_frame_witness :
    (updateTask [taskA] "alice" "t1"
        { title := none, description := none, status := some .done,
          priority := none, dueDate := none } 99).1.data =
      some { taskA with status := .done, updatedAt := 99 } :=
  (updateTask_status_done_frame [taskA] "alice" "t1" taskA 99 (by decide) rfl).1

/-- C8: UpdateTask overwrites exactly the fields present in the partial
body (strings trimmed) and keeps absent fields; an explicit `null` for
`dueDate` clears the stored due date, while an absent `dueDate` key leaves
it unchanged. -/
theorem updateTask_partial_merge (tasks : List Task) (requesterId id : String)
    (task : Task) (now : Nat) (b : TaskBody)
    (hfind : findTaskById tasks id = some task)
    (hown : task.userId = requesterId) :
    ∃ u, (updateTask tasks requesterId id b now).1.data = some u ∧
      (b.title = none → u.title = task.title) ∧
      (∀ s, b.title = some s → u.title = jsTrim s) ∧
      (b.description = none → u.description = task.description) ∧
      (∀ s, b.description = some s → u.description = jsTrim s) ∧
      (b.status = none → u.status = task.status) ∧
      (∀ v, b.status = some v → u.status = v) ∧
      (b.priority = none → u.priority = task.priority) ∧
      (∀ v, b.priority = some v → u.priority = v) ∧
      (b.dueDate = none → u.dueDate = task.dueDate) ∧
      (b.dueDate = some none → u.dueDate = none) ∧
      (∀ d, b.dueDate = some (some d) → u.dueDate = some d) := by
  refine ⟨applyUpdate task b now, by simp [updateTask, hfind, hown], ?_, ?_, ?_, ?_,
    ?_, ?_, ?_, ?_, ?_, ?_, ?_⟩
  · intro h; simp [applyUpdate, h]
  · intro s h; simp [applyUpdate, h]
  · intro h; simp [applyUpdate, h]
  · intro s h; simp [applyUpdate, h]
  · intro h; simp [applyUpdate, h]
  · intro v h; simp [applyUpdate, h]
  · intro h; simp [applyUpdate, h]
  · intro v h; simp [applyUpdate, h]
  · intro h; simp [applyUpdate, h]
  · intro h; simp [applyUpdate, h]
  · intro d h; simp [applyUpdate, h]

/-- Witness for C8: an explicit-null dueDate body on `taskA`. -/
theorem updateTask_partial_merge_witness :
    ∃ u, (updateTask [taskA] "alice" "t1"
        { title := none, description := none, status := none, priority := none,
          dueDate := some none } 99).1.data = some u ∧
      u.dueDate = none ∧ u.title = taskA.title :=
  match updateTask_partial_merge [taskA] "alice" "t1" taskA 99
      { title := none, description := none, status := none, priority := none,
        dueDate := some none } (by decide) rfl with
  | ⟨u, hu, htitle, _, _, _, _, _, _, _, _, hnull, _⟩ =>
    ⟨u, hu, hnull rfl, htitle rfl⟩

/-- C9 counterexample: on a server west of UTC (`getTimezoneOffset()` of
+300 minutes, i.e. UTC-5, `offMs = 18000000`), at 01:00 local time of
local calendar day 20000 a dueDate equal to today (day 20000) fails the
validator with 422: the date-only value parses as UTC midnight, which is
strictly before the local start of day. So "a dueDate equal to today
passes this validation" is false as stated. -/
theorem dueDate_today_rejected_west_of_utc :
    localToday 1728021600000 18000000 = 20000 ∧
    dueDatePast 20000 1728021600000 18000000 = true ∧
    createTaskEndpoint [] "u"
        { title := "T", description := none, status := none, priority := none,
          dueDate := some (some 20000) } "id" 1728021600000 18000000 =
      (validationResp ["Due date cannot be in the past."], []) := by decide

/-- C9 amended: a dueDate strictly earlier than the current server-local
calendar day always fails the validation with 422 before the handler runs
and leaves the store unchanged (for both CreateTask and UpdateTask); a
dueDate equal to today or later passes the dueDate check whenever the
server timezone is at or east of UTC (`offMs ≤ 0`) — on a server strictly
west of UTC a dueDate equal to today also fails, because the date-only
value parses as UTC midnight, which precedes the local start of day. -/
theorem dueDate_validation_day_bounds (d : Nat) (now : Nat) (offMs : Int)
    (hlo : -86400000 < offMs) (hhi : offMs < 86400000) :
    ((d : Int) < localToday now offMs → dueDatePast d now offMs = true) ∧
    (offMs ≤ 0 → localToday now offMs ≤ (d : Int) → dueDatePast d now offMs = false) ∧
    (∀ (tasks : List Task) (uid : String) (b : CreateBody) (newId : String),
      b.dueDate = some (some d) → (d : Int) < localToday now offMs →
      createTaskEndpoint tasks uid b newId now offMs =
        (validationResp (createValidationMsgs b now offMs), tasks) ∧
      "Due date cannot be in the past." ∈ createValidationMsgs b now offMs) ∧
    (∀ (tasks : List Task) (uid : String) (b : CreateBody) (newId : String),
      offMs ≤ 0 → localToday now offMs ≤ (d : Int) → b.dueDate = some (some d) →
      jsTrim b.title ≠ "" →
      createTaskEndpoint tasks uid b newId now offMs =
        createTask tasks uid b newId now) ∧
    (∀ (tasks : List Task) (req tid : String) (b : TaskBody),
      b.dueDate = some (some d) → (d : Int) < localToday now offMs →
      updateTaskEndpoint tasks req tid b now offMs =
        (validationResp (updateValidationMsgs b now offMs), tasks) ∧
      "Due date cannot be in the past." ∈ updateValidationMsgs b now offMs) ∧
    (∀ (tasks : List Task) (req tid : String) (b : TaskBody),
      offMs ≤ 0 → localToday now offMs ≤ (d : Int) → b.dueDate = some (some d) →
      (∀ s, b.title = some s → jsTrim s ≠ "") →
      updateTaskEndpoint tasks req tid b now offMs =
        updateTask tasks req tid b now) := by
  have hpast_t : (d : Int) < localToday now offMs → dueDatePast d now offMs = true := by
    intro h
    unfold dueDatePast localDayStart
    rw [decide_eq_true_eq]
    omega
  have hpast_f : offMs ≤ 0 → localToday now offMs ≤ (d : Int) →
      dueDatePast d now offMs = false := by
    intro hoff hle
    unfold dueDatePast localDayStart
    rw [decide_eq_false_iff_not]
    omega
  refine ⟨hpast_t, hpast_f, ?_, ?_, ?_, ?_⟩
  · intro tasks uid b newId hb hd
    have hmsg : createValidationMsgs b now offMs =
        (if jsTrim b.title == "" then ["Task title is required."] else []) ++
          ["Due date cannot be in the past."] := by
      simp [createValidationMsgs, hb, hpast_t hd]
    refine ⟨?_, by simp [hmsg]⟩
    simp [createTaskEndpoint, hmsg]
  · intro tasks uid b newId hoff hle hb htitle
    have hmsg : createValidationMsgs b now offMs = [] := by
      simp [createValidationMsgs, hb, hpast_f hoff hle, htitle]
    simp [createTaskEndpoint, hmsg]
  · intro tasks req tid b hb hd
    have hmsg : updateValidationMsgs b now offMs =
        (match b.title with
         | some s => if jsTrim s == "" then ["Title cannot be empty."] else []
         | none => []) ++ ["Due date cannot be in the past."] := by
      simp [updateValidationMsgs, hb, hpast_t hd]
    refine ⟨?_, by simp [hmsg]⟩
    simp [updateTaskEndpoint, hmsg]
  · intro tasks req tid b hoff hle hb htitle
    have hmsg : updateValidationMsgs b now offMs = [] := by
      cases hbt : b.title with
      | none => simp [updateValidationMsgs, hb, hpast_f hoff hle, hbt]
      | some s => simp [updateValidationMsgs, hb, hpast_f hoff hle, hbt, htitle s hbt]
    simp [updateTaskEndpoint, hmsg]

/-- Witness for C9 amended: with a UTC server (offset 0) on local day 100,
a dueDate of yesterday (day 99) is rejected with 422 and a dueDate of
today (day 100) passes through to the handler. -/
theorem dueDate_validation_day_bounds_witness :
    (createTaskEndpoint [] "u"
        { title := "T", description := none, status := none, priority := none,
          dueDate := some (some 99) } "id" 8640000005 0 =
      (validationResp (createValidationMsgs
          { title := "T", description := none, status := none, priority := none,
            dueDate := some (some 99) } 8640000005 0), []) ∧
      "Due date cannot be in the past." ∈ createValidationMsgs
          { title := "T", description := none, status := none, priority := none,
            dueDate := some (some 99) } 8640000005 0) ∧
    createTaskEndpoint [] "u"
        { title := "T", description := none, status := none, priority := none,
          dueDate := some (some 100) } "id" 8640000005 0 =
      createTask [] "u"
        { title := "T", description := none, status := none, priority := none,
          dueDate := some (some 100) } "id" 8640000005 :=
  ⟨(dueDate_validation_day_bounds 99 8640000005 0 (by decide) (by decide)).2.2.1
      [] "u" _ "id" rfl (by decide),
   (dueDate_validation_day_bounds 100 8640000005 0 (by decide) (by decide)).2.2.2.1
      [] "u" _ "id" (by decide) (by decide) rfl (by decide)⟩

/-- Helper (stability): sorting with `createdDesc` permutes nothing within
a creation-date class — filtering the sorted list down to one `createdAt`
value returns exactly the same sequence as filtering the input. -/
theorem insertionSort_filter_key (l : List Task) (c : Nat) :
    (l.insertionSort createdDesc).filter (fun t => t.createdAt == c) =
      l.filter (fun t => t.createdAt == c) := by
  have hall : ∀ a ∈ l.filter (fun t => t.createdAt == c), (fun t => t.createdAt == c) a := by
    intro a ha
    exact (List.mem_filter.mp ha).2
  have hpw : (l.filter (fun t => t.createdAt == c)).Pairwise createdDesc := by
    apply List.pairwise_of_forall_mem_list
    intro a ha b hb
    have ha' : a.createdAt = c := by simpa using (List.mem_filter.mp ha).2
    have hb' : b.createdAt = c := by simpa using (List.mem_filter.mp hb).2
    unfold createdDesc
    omega
  have hsub : List.Sublist (l.filter (fun t => t.createdAt == c))
      (l.insertionSort createdDesc) :=
    List.sublist_insertionSort hpw (List.filter_sublist l)
  have hsub2 : List.Sublist (l.filter (fun t => t.createdAt == c))
      ((l.insertionSort createdDesc).filter (fun t => t.createdAt == c)) := by
    have := hsub.filter (fun t => t.createdAt == c)
    rwa [List.filter_eq_self.mpr hall] at this
  have hperm : List.Perm
      ((l.insertionSort createdDesc).filter (fun t => t.createdAt == c))
      (l.filter (fun t => t.createdAt == c)) :=
    (List.perm_insertionSort createdDesc l).filter _
  exact (hsub2.eq_of_length hperm.length_eq.symm).symm

/-- C6: for every requester and every combination of supplied (non-empty
single-string) status, priority and search filters, ListTasks returns
exactly the requester's tasks satisfying every supplied filter, sorted by
`createdAt` descending with ties keeping the original retrieval order. -/
theorem getTasks_filter_sort_spec (tasks : List Task) (uid : String)
    (st pr se : Option String)
    (hst : ∀ q, st = some q → q ≠ "") (hpr : ∀ q, pr = some q → q ≠ "")
    (hse : ∀ q, se = some q → q ≠ "") :
    (∀ t, t ∈ (getTasks tasks uid (toQP st) (toQP pr) (toQP se)).data ↔
      t ∈ tasks ∧ listTasksPred uid st pr se t = true) ∧
    (getTasks tasks uid (toQP st) (toQP pr) (toQP se)).data.Pairwise createdDesc ∧
    (∀ c : Nat,
      (getTasks tasks uid (toQP st) (toQP pr) (toQP se)).data.filter
          (fun t => t.createdAt == c) =
        (tasks.filter (listTasksPred uid st pr se)).filter
          (fun t => t.createdAt == c)) := by
  have hstq : qpString (toQP st) = st := by
    cases st with
    | none => rfl
    | some q => simp [toQP, qpString, hst q rfl]
  have hprq : qpString (toQP pr) = pr := by
    cases pr with
    | none => rfl
    | some q => simp [toQP, qpString, hpr q rfl]
  have hseq : qpString (toQP se) = se := by
    cases se with
    | none => rfl
    | some q => simp [toQP, qpString, hse q rfl]
  have hres : (getTasks tasks uid (toQP st) (toQP pr) (toQP se)).data =
      (tasks.filter (listTasksPred uid st pr se)).insertionSort createdDesc := by
    simp only [getTasks, hstq, hprq, hseq]
    rcases st with _ | qs <;> rcases pr with _ | qp <;> rcases se with _ | qe <;>
      · simp only [List.filter_filter, getTasksByUser]
        congr 1
        apply List.filter_congr
        intro t _
        simp [listTasksPred, searchMatches, Bool.and_comm, Bool.and_left_comm,
          Bool.and_assoc]
  refine ⟨?_, ?_, ?_⟩
  · intro t
    rw [hres, List.mem_insertionSort, List.mem_filter]
  · rw [hres]
    exact List.sorted_insertionSort createdDesc _
  · intro c
    rw [hres]
    exact insertionSort_filter_key _ c

/-- Witness for C6: on the fixture list with
`status=done&priority=high&search=foo`, membership of the tied task `w4`
and preservation of the original order of the `createdAt = 5` tie class. -/
theorem getTasks_filter_sort_spec_witness :
    ((tasksW.get ⟨3, by decide⟩) ∈
        (getTasks tasksW "u" (toQP (some "done")) (toQP (some "high"))
          (toQP (some "foo"))).data ↔
      (tasksW.get ⟨3, by decide⟩) ∈ tasksW ∧
        listTasksPred "u" (some "done") (some "high") (some "foo")
          (tasksW.get ⟨3, by decide⟩) = true) ∧
    (getTasks tasksW "u" (toQP (some "done")) (toQP (some "high"))
        (toQP (some "foo"))).data.filter (fun t => t.createdAt == 5) =
      (tasksW.filter (listTasksPred "u" (some "done") (some "high") (some "foo"))).filter
        (fun t => t.createdAt == 5) :=
  ⟨(getTasks_filter_sort_spec tasksW "u" (some "done") (some "high") (some "foo")
      (fun q hq => by cases hq; decide) (fun q hq => by cases hq; decide)
      (fun q hq => by cases hq; decide)).1 _,
   (getTasks_filter_sort_spec tasksW "u" (some "done") (some "high") (some "foo")
      (fun q hq => by cases hq; decide) (fun q hq => by cases hq; decide)
      (fun q hq => by cases hq; decide)).2.2 5⟩

end TaskDashboard
